import Mathlib

/-!
Verification of core behaviors of the Technician Toolkit application.

The development shallowly embeds the Python source of the repository:
SQLite tables become Lean lists of row structures, the module-level
session globals become fields of an explicit state record, and the
fallible library calls (Argon2 verification) become explicit outcome
values.  Each definition mirrors one Python function; theorems at the
end of the file settle the behavioral claims about those functions.
-/

namespace TechnicianToolkit

/-! ## A small model of Python runtime values

Cell values, keyword-argument values and attribute values in the code
are Python objects: `None`, strings, ints, `datetime.date` and
`datetime.datetime` instances.  `PyVal` models exactly this universe.
-/

inductive PyVal where
  | none
  | str (s : String)
  | int (n : Int)
  | date (y mo d : Int)
  | datetime (y mo d h mi s : Int)
deriving DecidableEq, Repr

/-- Python truthiness for `PyVal` (`None`, `""` and `0` are falsy;
date and datetime objects are always truthy). -/
def pyTruthy : PyVal → Bool
  | .none => false
  | .str s => s ≠ ""
  | .int n => n ≠ 0
  | .date _ _ _ => true
  | .datetime _ _ _ _ _ _ => true

/-- Zero-pad a (non-negative, small) integer to two digits, as Python
does in `str(date)` / `str(datetime)`. -/
def pad2 (n : Int) : String :=
  if 0 ≤ n ∧ n < 10 then "0" ++ toString n else toString n

/-- Zero-pad a year to four digits. -/
def pad4 (n : Int) : String :=
  if 0 ≤ n ∧ n < 10 then "000" ++ toString n
  else if 0 ≤ n ∧ n < 100 then "00" ++ toString n
  else if 0 ≤ n ∧ n < 1000 then "0" ++ toString n
  else toString n

/-- Python `str()` applied to a `PyVal`. -/
def pyStr : PyVal → String
  | .none => "None"
  | .str s => s
  | .int n => toString n
  | .date y mo d => pad4 y ++ "-" ++ pad2 mo ++ "-" ++ pad2 d
  | .datetime y mo d h mi s =>
      pad4 y ++ "-" ++ pad2 mo ++ "-" ++ pad2 d ++ " " ++
      pad2 h ++ ":" ++ pad2 mi ++ ":" ++ pad2 s

/-- The whitespace characters stripped by Python `str.strip()`
(space, tab, newline, carriage return, vertical tab, form feed). -/
def pyWhitespace (c : Char) : Bool :=
  c = ' ' ∨ c = '\t' ∨ c = '\n' ∨ c = '\r' ∨ c = '\x0b' ∨ c = '\x0c'

/-- Python `str.strip()`: drop leading and trailing whitespace. -/
def pyStrip (s : String) : String :=
  String.mk (((s.data.dropWhile pyWhitespace).reverse.dropWhile pyWhitespace).reverse)

/-- Python `str.lower()` (restricted to ASCII case mapping, which is
all header and filter strings of the repository use). -/
def pyLower (s : String) : String :=
  String.mk (s.data.map Char.toLower)

/-- Numeric value of a list of decimal digit characters. -/
def digitsVal (ds : List Char) : Nat :=
  ds.foldl (fun acc c => acc * 10 + (c.toNat - '0'.toNat)) 0

/-- Python `int(s)` on a string: optional sign and decimal digits after
stripping surrounding whitespace; `Option.none` models `ValueError`. -/
def strToInt? (s : String) : Option Int :=
  let cs := (pyStrip s).data
  let signed : Int × List Char :=
    match cs with
    | '-' :: rest => (-1, rest)
    | '+' :: rest => (1, rest)
    | rest => (1, rest)
  if signed.2 ≠ [] ∧ signed.2.all Char.isDigit then
    some (signed.1 * (digitsVal signed.2 : Int))
  else
    Option.none

/-- `core.utils.safe_str`: `""` for `None`, otherwise `str(value).strip()`. -/
def safe_str (v : PyVal) : String :=
  match v with
  | .none => ""
  | v => pyStrip (pyStr v)

/-- `core.utils.safe_str` applied to a value already known to be a
Python string (as the model code does to object attributes):
`str(s).strip() = s.strip()`. -/
def safe_strS (s : String) : String := pyStrip s

/-- `core.utils.safe_int` with its default `0`: `int(value)`, or `0`
when `int()` raises `ValueError`/`TypeError`. -/
def safe_int (v : PyVal) : Int :=
  match v with
  | .int n => n
  | .str s =>
      match strToInt? s with
      | some n => n
      | Option.none => 0
  | _ => 0

/-! ## Authentication and session state (`core/logic.py`)

The `users` SQLite table becomes a list of rows; the two module-level
globals become explicit state fields.  `core/logic.py` declares
`current_user: str | None = None` at module level, while
`_set_current_user` executes `global _current_user; _current_user =
username`, which creates and assigns a *different* module global named
`_current_user`; the field `underscore_current_user` models that
second global.  Argon2 library behavior (hashing, verification,
rehash-parameter checks) is kept abstract as function parameters;
`ArgonOutcome` models the result of `ph.verify`, which either returns
a bool or raises one of `VerifyMismatchError`, `VerificationError`,
`InvalidHash`.
-/

structure UserRow where
  id : Nat
  username : String
  email : String
  password_hash : String
deriving DecidableEq, Repr

structure AuthState where
  users : List UserRow
  next_user_id : Nat
  current_user : Option String
  underscore_current_user : Option String
deriving DecidableEq, Repr

inductive ArgonOutcome where
  | ok (b : Bool)
  | verifyMismatch
  | verificationError
  | invalidHash
deriving DecidableEq, Repr

/-- `logic.hash_password`: delegates to the Argon2 hasher, modelled by
the abstract function `hashFn`. -/
def hash_password (hashFn : String → String) (password : String) : String :=
  hashFn password

/-- `logic.verify_password_argon2`: returns the bool `ph.verify`
returns, and converts each of the three caught Argon2 exceptions
(wrong password, corrupted hash, invalid format) to `false`. -/
def verify_password_argon2 (verify : String → String → ArgonOutcome)
    (stored_hash password : String) : Bool :=
  match verify stored_hash password with
  | .ok b => b
  | .verifyMismatch => false
  | .verificationError => false
  | .invalidHash => false

/-- `logic.register_user`: abort with `False` if a row with this
username exists, otherwise hash the password and insert a new row. -/
def register_user (hashFn : String → String)
    (username email password : String) (st : AuthState) : Bool × AuthState :=
  if st.users.any (fun u => u.username == username) then
    (false, st)
  else
    let password_hash := hash_password hashFn password
    (true,
      { st with
        users := st.users ++ [⟨st.next_user_id, username, email, password_hash⟩],
        next_user_id := st.next_user_id + 1 })

/-- `logic._set_current_user`: `global _current_user; _current_user =
username` — assigns the `_current_user` global (not `current_user`). -/
def set_current_user (username : String) (st : AuthState) : AuthState :=
  { st with underscore_current_user := some username }

/-- `logic.get_current_user`: `return current_user or "default_user"` —
reads the module global `current_user` (initialized to `None` and
never reassigned anywhere in the module). -/
def get_current_user (st : AuthState) : String :=
  match st.current_user with
  | some s => if s = "" then "default_user" else s
  | Option.none => "default_user"

/-- `logic.login_user`: look up the user row, reject a missing row or
an empty stored hash, verify the password, opportunistically rehash
when parameters are stale (failures there do not block the login), and
store the authenticated username via `_set_current_user`. -/
def login_user (verify : String → String → ArgonOutcome)
    (needs_rehash : String → Bool) (hashFn : String → String)
    (username password : String) (st : AuthState) : Bool × AuthState :=
  match st.users.find? (fun u => u.username == username) with
  | Option.none => (false, st)
  | some row =>
    if row.password_hash = "" then (false, st)
    else if verify_password_argon2 verify row.password_hash password then
      let st1 :=
        if needs_rehash row.password_hash then
          { st with
            users := st.users.map (fun u =>
              if u.id = row.id then { u with password_hash := hashFn password } else u) }
        else st
      (true, set_current_user username st1)
    else (false, st)

/-! ## Inventory rows (`core/models/inventory_model.py`)

The `inventory_items` table becomes a list of rows (the integer
primary key plays no role in the claims; rows are addressed by
`part_number` and `user`, exactly as the SQL in the source does).
Quantities are `Int`: every write in the source goes through
`safe_int`, so the `NULL` guard `row[0] or 0` in
`ServiceActivity.create` is the identity in this model.
-/

structure InventoryRow where
  part_number : String
  quantity : Int
  part_location : String
  model : String
  part_description : String
  quarterly_inventory_verification_date : String
  category_id : String
  notes : String
  user : String
deriving DecidableEq, Repr

/-- The keyword arguments accepted by `InventoryItem.create(**kw)`.
A key that the caller omits is modelled as `PyVal.none`, matching
`kw.get(...)`; the one exception is `user`, where `kw.get("user",
"default_user")` makes an *absent* key behave as the string
`"default_user"` — callers of the model pass that value explicitly. -/
structure InvKw where
  part_number : PyVal
  quantity : PyVal
  part_location : PyVal
  model : PyVal
  part_description : PyVal
  quarterly_inventory_verification_date : PyVal
  category_id : PyVal
  notes : PyVal
  user : PyVal
deriving DecidableEq, Repr

namespace InventoryItem

/-- `InventoryItem.create`: INSERT one row after normalizing every
field with `safe_str` / `safe_int`. -/
def create (kw : InvKw) (store : List InventoryRow) : List InventoryRow :=
  store ++ [{
    part_number := safe_str kw.part_number
    quantity := safe_int kw.quantity
    part_location := safe_str kw.part_location
    model := safe_str kw.model
    part_description := safe_str kw.part_description
    quarterly_inventory_verification_date := safe_str kw.quarterly_inventory_verification_date
    category_id := safe_str kw.category_id
    notes := safe_str kw.notes
    user := safe_str kw.user }]

/-- `InventoryItem.add_quantity(part_number, quantity,
user="default_user")`: no-op on a falsy part number or a non-positive
quantity, otherwise `UPDATE inventory_items SET quantity = quantity +
? WHERE part_number=? AND user=?`. -/
def add_quantity (part_number : String) (quantity : Int) (user : String)
    (store : List InventoryRow) : List InventoryRow :=
  if part_number = "" ∨ quantity ≤ 0 then store
  else store.map (fun r =>
    if r.part_number = part_number ∧ r.user = user then
      { r with quantity := r.quantity + quantity }
    else r)

end InventoryItem

/-! ## Service activity rows (`core/models/service_activity_model.py`) -/

structure SARow where
  id : Nat
  area : String
  customer : String
  serial_number : String
  meter : String
  malfunction : String
  arrival_date : String
  arrival_time : String
  remedial_action : String
  quantity : Int
  part_replaced : String
  departure_date : String
  departure_time : String
  call_duration : String
  technician : String
  comments : String
  user : String
deriving DecidableEq, Repr

/-- The `**data` keyword arguments of `ServiceActivity.create`; a key
the caller omits is `PyVal.none` (what `data.get(...)` returns). -/
structure SAData where
  area : PyVal
  customer : PyVal
  serial_number : PyVal
  meter : PyVal
  malfunction : PyVal
  arrival_date : PyVal
  arrival_time : PyVal
  remedial_action : PyVal
  quantity : PyVal
  part_replaced : PyVal
  departure_date : PyVal
  departure_time : PyVal
  call_duration : PyVal
  technician : PyVal
  comments : PyVal
  user : PyVal
deriving DecidableEq, Repr

/-- A `ServiceActivity` Python object (`self` in `update` / `delete`,
`item` in the delete handler of the page).  `__init__` normalizes every
text field with `safe_str` and `quantity` with `safe_int`, so the
fields are typed `String` / `Int`; the theorems below quantify over
arbitrary field contents. -/
structure SAObj where
  id : Nat
  area : String
  customer : String
  serial_number : String
  meter : String
  malfunction : String
  arrival_date : String
  arrival_time : String
  remedial_action : String
  quantity : Int
  part_replaced : String
  departure_date : String
  departure_time : String
  call_duration : String
  technician : String
  comments : String
  user : String
deriving DecidableEq, Repr

/-- The database state touched by service activity operations: the
`service_activity` table, the `inventory_items` table, and the next
AUTOINCREMENT id for `service_activity`. -/
structure Store where
  activities : List SARow
  inventory : List InventoryRow
  next_id : Nat
deriving DecidableEq, Repr

/-- `UPDATE inventory_items SET quantity = quantity + ? WHERE
part_number=? AND user=?` (no clamping). -/
def inv_add (store : List InventoryRow) (part user : String) (amt : Int) :
    List InventoryRow :=
  store.map (fun r =>
    if r.part_number = part ∧ r.user = user then
      { r with quantity := r.quantity + amt }
    else r)

/-- `UPDATE inventory_items SET quantity = MAX(quantity - ?, 0) WHERE
part_number=? AND user=?` (decrement clamped at zero). -/
def inv_sub_clamped (store : List InventoryRow) (part user : String) (amt : Int) :
    List InventoryRow :=
  store.map (fun r =>
    if r.part_number = part ∧ r.user = user then
      { r with quantity := max (r.quantity - amt) 0 }
    else r)

/-- The "inventory adjustments" block of `ServiceActivity.update`:
the four `if`/`elif` branches that reconcile inventory with the change
from the old `(part, quantity)` to the new one.  All four address the
*new* `user` binding, as the source does. -/
def sa_update_inventory (inv : List InventoryRow) (old_part : String) (old_qty : Int)
    (new_part : String) (new_qty : Int) (user : String) : List InventoryRow :=
  if old_part ≠ "" ∧ old_part ≠ new_part then
    let inv1 := inv_add inv old_part user old_qty
    if new_part ≠ "" then inv_sub_clamped inv1 new_part user new_qty else inv1
  else if old_part = new_part ∧ new_part ≠ "" then
    let diff := new_qty - old_qty
    if diff > 0 then inv_sub_clamped inv new_part user diff
    else if diff < 0 then inv_add inv new_part user (-diff)
    else inv
  else if old_part ≠ "" ∧ new_part = "" then
    inv_add inv old_part user old_qty
  else if old_part = "" ∧ new_part ≠ "" then
    inv_sub_clamped inv new_part user new_qty
  else inv

namespace ServiceActivity

/-- `ServiceActivity.create(**data)`: normalize the fields, INSERT the
row, and when a part is referenced decrement the matching inventory
row: `use_qty = quantity if quantity and quantity > 0 else 1`, then
`new_qty = max(0, current_qty - use_qty)` written back to every row
matching the part number and user (the SELECT reads the first such
row, as `fetchone` does). -/
def create (data : SAData) (st : Store) : Store :=
  let quantity := safe_int data.quantity
  let part_replaced := safe_str data.part_replaced
  let user := safe_str (if pyTruthy data.user then data.user else .str "default_user")
  let row : SARow :=
    { id := st.next_id
      area := safe_str data.area
      customer := safe_str data.customer
      serial_number := safe_str data.serial_number
      meter := safe_str data.meter
      malfunction := safe_str data.malfunction
      arrival_date := safe_str data.arrival_date
      arrival_time := safe_str data.arrival_time
      remedial_action := safe_str data.remedial_action
      quantity := quantity
      part_replaced := part_replaced
      departure_date := safe_str data.departure_date
      departure_time := safe_str data.departure_time
      call_duration := safe_str data.call_duration
      technician := safe_str data.technician
      comments := safe_str data.comments
      user := user }
  let inventory :=
    if part_replaced ≠ "" then
      let use_qty := if quantity > 0 then quantity else 1
      match st.inventory.find? (fun r => r.part_number == part_replaced && r.user == user) with
      | some invRow =>
          let current_qty := invRow.quantity
          let new_qty := max 0 (current_qty - use_qty)
          st.inventory.map (fun r =>
            if r.part_number = part_replaced ∧ r.user = user then
              { r with quantity := new_qty }
            else r)
      | Option.none => st.inventory
    else st.inventory
  { activities := st.activities ++ [row]
    inventory := inventory
    next_id := st.next_id + 1 }

/-- `ServiceActivity.update(self)`: load the old row (returning
untouched state when the id does not exist), rewrite the
`service_activity` row, then adjust inventory through the four
branches of the source (part changed / same part with quantity delta /
part removed / part added).  All adjustments address the rows of the *new* user binding, exactly as the source binds `user`. -/
def update (self : SAObj) (st : Store) : Store :=
  match st.activities.find? (fun r => r.id == self.id) with
  | Option.none => st
  | some old_row =>
    let old_part := safe_strS old_row.part_replaced
    let old_qty := old_row.quantity
    let _old_user := safe_strS (if old_row.user = "" then "default_user" else old_row.user)
    let new_part := safe_strS self.part_replaced
    let new_qty := self.quantity
    let user := safe_strS self.user
    let activities := st.activities.map (fun r =>
      if r.id = self.id then
        { r with
          area := safe_strS self.area
          customer := safe_strS self.customer
          serial_number := safe_strS self.serial_number
          meter := safe_strS self.meter
          malfunction := safe_strS self.malfunction
          arrival_date := safe_strS self.arrival_date
          arrival_time := safe_strS self.arrival_time
          remedial_action := safe_strS self.remedial_action
          quantity := new_qty
          part_replaced := new_part
          departure_date := safe_strS self.departure_date
          departure_time := safe_strS self.departure_time
          call_duration := safe_strS self.call_duration
          technician := safe_strS self.technician
          comments := safe_strS self.comments
          user := user }
      else r)
    let inventory := sa_update_inventory st.inventory old_part old_qty new_part new_qty user
    { activities := activities
      inventory := inventory
      next_id := st.next_id }

/-- `ServiceActivity.delete(self)`: `DELETE FROM service_activity
WHERE id=?`. -/
def delete (self : SAObj) (st : Store) : Store :=
  { st with activities := st.activities.filter (fun r => r.id != self.id) }

end ServiceActivity

/-- `ServiceActivityPage._do_delete(item)` after the user confirms the
dialog: replenish stock with `InventoryItem.add_quantity(part, qty)` —
note the call site passes no user, so the default `"default_user"`
applies — and then delete the record. -/
def sa_page_do_delete (item : SAObj) (st : Store) : Store :=
  let part := pyStrip item.part_replaced
  let qty := item.quantity
  let st1 :=
    if part ≠ "" ∧ qty > 0 then
      { st with inventory := InventoryItem.add_quantity part qty "default_user" st.inventory }
    else st
  ServiceActivity.delete item st1

/-! ## Allow-list filter proxy
(`ui/components/filters/filter_proxy_models.py`)

A row object is its attribute map; `getattr(item, col_name, "")`
becomes an association-list lookup with the string `""` as default.
The proxy state carries the active filter dictionary and the list of
recognized column keys.
-/

/-- A row object as seen by `filterAcceptsRow`: a finite attribute
map (Python attribute names are unique, lookups take the first hit). -/
def RowItem := List (String × PyVal)

instance : DecidableEq RowItem := by
  unfold RowItem
  infer_instance

/-- The cell string `sval` computed by `filterAcceptsRow`:
`val = getattr(item, col_name, "")` then
`sval = "" if val is None else str(val)`. -/
def cellStr (item : RowItem) (col_name : String) : String :=
  match (List.find? (fun av => av.1 == col_name) item).map (fun av => av.2) with
  | Option.none => ""
  | some PyVal.none => ""
  | some v => pyStr v

structure ColumnFilterProxy where
  filters : List (String × List String)
  columns : List String
deriving DecidableEq, Repr

namespace ColumnFilterProxy

/-- `ColumnFilterProxy.set_filters`: replace the filter dictionary
(the subsequent `invalidateFilter()` re-runs `filterAcceptsRow`, which
is how the theorems below consume the result). -/
def set_filters (p : ColumnFilterProxy) (filters : List (String × List String)) :
    ColumnFilterProxy :=
  { p with filters := filters }

/-- `ColumnFilterProxy.filterAcceptsRow`: out-of-range rows are kept;
otherwise the row must pass every filter entry, where an empty
allow-set imposes no constraint, an unrecognized column key is
skipped, and otherwise the cell string must be in the allow-set. -/
def filterAcceptsRow (p : ColumnFilterProxy) (items : List RowItem)
    (source_row : Nat) : Bool :=
  if source_row < items.length then
    let item := items.getD source_row []
    p.filters.all (fun cf =>
      if cf.2.isEmpty then true
      else if ¬ (p.columns.contains cf.1) then true
      else cf.2.contains (cellStr item cf.1))
  else true

end ColumnFilterProxy

/-- Modelled from the spec: "a row is visible only if every filtered
value of every filtered column is in its allow-set.  Empty filter set for a column =
no constraint on that column."  Unlike the source, this predicate
constrains *every* filtered column, whether or not the proxy
recognizes its key. -/
def specAcceptsRow (filters : List (String × List String)) (item : RowItem) : Bool :=
  filters.all (fun cf => cf.2.isEmpty || cf.2.contains (cellStr item cf.1))

/-- Number of rows of the source model that the proxy exposes. -/
def visible_count (p : ColumnFilterProxy) (items : List RowItem) : Nat :=
  ((List.range items.length).filter (fun r => p.filterAcceptsRow items r)).length

/-! ## Inventory Excel importer (`core/importers/inventory_importer.py`)

A workbook sheet is its header row plus data rows of cell values.  The
data store is the `inventory_items` row list; `InventoryItem.create`
appends.  The function returns the new store together with the
`(added, missing)` pair the source returns.
-/

structure Sheet where
  header : List PyVal
  rows : List (List PyVal)
deriving DecidableEq, Repr

def REQUIRED_HEADERS : List String :=
  ["part number", "qty", "part location", "model", "part description",
   "quarterly inventory verification date", "days since last verification",
   "notes", "today\x27s date"]

/-- Header-cell normalization:
`str(c.value).strip().lower() if c.value else ""`. -/
def normalize_header (c : PyVal) : String :=
  if pyTruthy c then pyLower (pyStrip (pyStr c)) else ""

/-- `dict(zip(headers, row)).get(key)`: later duplicate headers
overwrite earlier ones, `zip` truncates to the shorter list, and a
missing key yields Python `None`. -/
def row_dict_get (headers : List String) (row : List PyVal) (key : String) : PyVal :=
  ((headers.zip row).foldl
    (fun acc hv => if hv.1 = key then some hv.2 else acc) Option.none).getD PyVal.none

/-- One iteration of the data-row loop of the importer: skip fully blank
rows, build `item_data`, skip rows whose non-user values are all
falsy, otherwise insert one record and count it. -/
def import_inventory_step (headers : List String) (user : String)
    (acc : List InventoryRow × Nat) (row : List PyVal) : List InventoryRow × Nat :=
  if ¬ (row.any pyTruthy) then acc
  else
    let raw_date := row_dict_get headers row "quarterly inventory verification date"
    let clean_date :=
      match raw_date with
      | PyVal.datetime y mo d _ _ _ => PyVal.date y mo d
      | v => v
    let item : InvKw :=
      { part_number := row_dict_get headers row "part number"
        quantity := row_dict_get headers row "qty"
        part_location := row_dict_get headers row "part location"
        model := row_dict_get headers row "model"
        part_description := row_dict_get headers row "part description"
        quarterly_inventory_verification_date := clean_date
        category_id :=
          if headers.contains "category" then row_dict_get headers row "category"
          else PyVal.none
        notes := row_dict_get headers row "notes"
        user := PyVal.str user }
    if ¬ ([item.part_number, item.quantity, item.part_location, item.model,
           item.part_description, item.quarterly_inventory_verification_date,
           item.notes, item.category_id].any pyTruthy) then acc
    else (InventoryItem.create item acc.1, acc.2 + 1)

/-- `import_inventory_from_excel`: normalize the header row, abort
with `(0, missing)` when any required header is absent, otherwise
insert one record per non-blank data row and return `(added, [])`. -/
def import_inventory_from_excel (sheet : Sheet) (user : String)
    (store : List InventoryRow) : List InventoryRow × Nat × List String :=
  let headers := sheet.header.map normalize_header
  let missing := REQUIRED_HEADERS.filter (fun h => ¬ (headers.contains h))
  if missing ≠ [] then (store, 0, missing)
  else
    let res := sheet.rows.foldl (import_inventory_step headers user) (store, 0)
    (res.1, res.2, [])

/-! ## Duration computation (`core/logic.py`, `compute_duration`)

`datetime.strptime` is modelled directly on character lists for the
three accepted patterns.  Each numeric directive mirrors the
alternation of the compiled regex of `_strptime` — a two-digit match with
the value range of the directive, else a single digit — and a literal
space in the format matches a run of whitespace.  After the structural
match, `mk_datetime` performs the range validation of the `datetime(...)` constructor (real month/day bounds, seconds below 60), any failure
raising `ValueError`, which `parse` turns into trying the next
pattern and finally `None`.
-/

structure PyDateTime where
  year : Nat
  month : Nat
  day : Nat
  hour : Nat
  minute : Nat
  second : Nat
deriving DecidableEq, Repr

def isLeapYear (y : Nat) : Bool := y % 4 = 0 ∧ (y % 100 ≠ 0 ∨ y % 400 = 0)

def daysInMonth (y mo : Nat) : Nat :=
  if mo = 2 then (if isLeapYear y then 29 else 28)
  else if mo = 4 ∨ mo = 6 ∨ mo = 9 ∨ mo = 11 then 30
  else 31

/-- The `datetime(year, month, day, hour, minute, second)` constructor:
`Option.none` models the `ValueError` on out-of-range components. -/
def mk_datetime (y mo d h mi s : Nat) : Option PyDateTime :=
  if 1 ≤ y ∧ y ≤ 9999 ∧ 1 ≤ mo ∧ mo ≤ 12 ∧ 1 ≤ d ∧ d ≤ daysInMonth y mo ∧
     h ≤ 23 ∧ mi ≤ 59 ∧ s ≤ 59 then
    some ⟨y, mo, d, h, mi, s⟩
  else Option.none

/-- `%Y`: exactly four digits (the `_strptime` regex for the year). -/
def parseYear (cs : List Char) : Option (Nat × List Char) :=
  match cs with
  | c1 :: c2 :: c3 :: c4 :: rest =>
      if c1.isDigit ∧ c2.isDigit ∧ c3.isDigit ∧ c4.isDigit then
        some (digitsVal [c1, c2, c3, c4], rest)
      else Option.none
  | _ => Option.none

/-- A numeric directive: prefer a two-digit match satisfying the
two-digit range of the directive, otherwise a single digit satisfying its
one-digit range (the next format element then decides success). -/
def num2 (twoOK oneOK : Nat → Bool) : List Char → Option (Nat × List Char)
  | c1 :: c2 :: rest =>
      if c1.isDigit ∧ c2.isDigit ∧ twoOK (digitsVal [c1, c2]) then
        some (digitsVal [c1, c2], rest)
      else if c1.isDigit ∧ oneOK (digitsVal [c1]) then
        some (digitsVal [c1], c2 :: rest)
      else Option.none
  | [c1] =>
      if c1.isDigit ∧ oneOK (digitsVal [c1]) then some (digitsVal [c1], [])
      else Option.none
  | [] => Option.none

/-- A literal character of the format. -/
def lit (c : Char) : List Char → Option (List Char)
  | x :: rest => if x = c then some rest else Option.none
  | [] => Option.none

/-- A literal space in the format matches one or more whitespace
characters. -/
def ws1 : List Char → Option (List Char)
  | c :: rest => if pyWhitespace c then some (rest.dropWhile pyWhitespace) else Option.none
  | [] => Option.none

/-- `%p`: `AM` or `PM`, case-insensitively; `true` means PM. -/
def ampm : List Char → Option (Bool × List Char)
  | a :: m :: rest =>
      if a.toLower = 'a' ∧ m.toLower = 'm' then some (false, rest)
      else if a.toLower = 'p' ∧ m.toLower = 'm' then some (true, rest)
      else Option.none
  | _ => Option.none

/-- The shared `%Y-%m-%d` date prefix of all three patterns. -/
def strpDate (cs : List Char) : Option (Nat × Nat × Nat × List Char) := do
  let (y, cs) ← parseYear cs
  let cs ← lit '-' cs
  let (mo, cs) ← num2 (fun v => decide (1 ≤ v ∧ v ≤ 12)) (fun v => decide (1 ≤ v ∧ v ≤ 9)) cs
  let cs ← lit '-' cs
  let (d, cs) ← num2 (fun v => decide (1 ≤ v ∧ v ≤ 31)) (fun v => decide (1 ≤ v ∧ v ≤ 9)) cs
  pure (y, mo, d, cs)

/-- `datetime.strptime(ts, "%Y-%m-%d %I:%M %p")`, requiring the whole
string to be consumed.  The 12-hour value is folded with the AM/PM
marker exactly as `_strptime` does. -/
def strptime_ymd_IMp (ts : String) : Option PyDateTime := do
  let (y, mo, d, cs) ← strpDate ts.data
  let cs ← ws1 cs
  let (i, cs) ← num2 (fun v => decide (1 ≤ v ∧ v ≤ 12)) (fun v => decide (1 ≤ v ∧ v ≤ 9)) cs
  let cs ← lit ':' cs
  let (mi, cs) ← num2 (fun v => decide (v ≤ 59)) (fun v => decide (v ≤ 9)) cs
  let cs ← ws1 cs
  let (pm, cs) ← ampm cs
  if cs = [] then mk_datetime y mo d (i % 12 + (if pm then 12 else 0)) mi 0
  else Option.none

/-- `datetime.strptime(ts, "%Y-%m-%d %H:%M")`. -/
def strptime_ymd_HM (ts : String) : Option PyDateTime := do
  let (y, mo, d, cs) ← strpDate ts.data
  let cs ← ws1 cs
  let (h, cs) ← num2 (fun v => decide (v ≤ 23)) (fun v => decide (v ≤ 9)) cs
  let cs ← lit ':' cs
  let (mi, cs) ← num2 (fun v => decide (v ≤ 59)) (fun v => decide (v ≤ 9)) cs
  if cs = [] then mk_datetime y mo d h mi 0
  else Option.none

/-- `datetime.strptime(ts, "%Y-%m-%d %H:%M:%S")` (the `%S` regex
admits 60 and 61, which the `datetime` constructor then rejects). -/
def strptime_ymd_HMS (ts : String) : Option PyDateTime := do
  let (y, mo, d, cs) ← strpDate ts.data
  let cs ← ws1 cs
  let (h, cs) ← num2 (fun v => decide (v ≤ 23)) (fun v => decide (v ≤ 9)) cs
  let cs ← lit ':' cs
  let (mi, cs) ← num2 (fun v => decide (v ≤ 59)) (fun v => decide (v ≤ 9)) cs
  let cs ← lit ':' cs
  let (s, cs) ← num2 (fun v => decide (v ≤ 61)) (fun v => decide (v ≤ 9)) cs
  if cs = [] then mk_datetime y mo d h mi s
  else Option.none

/-- The nested `parse(d, t)` helper of `compute_duration`: pass an
Excel `datetime` object through unchanged, otherwise combine
`f"{d} {t}".strip()` and try the three patterns in order, `None` when
all fail. -/
def parse (d t : PyVal) : Option PyDateTime :=
  match t with
  | .datetime y mo dd h mi s =>
      some ⟨y.toNat, mo.toNat, dd.toNat, h.toNat, mi.toNat, s.toNat⟩
  | t =>
    let ts := pyStrip (pyStr d ++ " " ++ pyStr t)
    match strptime_ymd_IMp ts with
    | some v => some v
    | Option.none =>
      match strptime_ymd_HM ts with
      | some v => some v
      | Option.none => strptime_ymd_HMS ts

/-- Leap days in years `1..n` of the proleptic Gregorian calendar. -/
def leapsBefore (n : Nat) : Nat := n / 4 - n / 100 + n / 400

def days_before_year (y : Nat) : Nat := 365 * (y - 1) + leapsBefore (y - 1)

def day_of_year (y mo d : Nat) : Nat :=
  (List.range (mo - 1)).foldl (fun acc i => acc + daysInMonth y (i + 1)) 0 + d

/-- `datetime.toordinal()`: day number in the proleptic Gregorian
calendar, with day 1 = January 1 of year 1. -/
def toordinal (dt : PyDateTime) : Nat :=
  days_before_year dt.year + day_of_year dt.year dt.month dt.day

/-- Seconds since the calendar epoch; differences of this quantity are
`(end - start).total_seconds()`. -/
def total_secs (dt : PyDateTime) : Int :=
  ((toordinal dt * 86400 + dt.hour * 3600 + dt.minute * 60 + dt.second : Nat) : Int)

/-- `logic.compute_duration`: parse both endpoints, return
`"0hr, 0min"` when either fails, otherwise floor the difference to
minutes (`int(diff.total_seconds() // 60)`), split with `divmod`, and
format with singular labels exactly at one. -/
def compute_duration (arr_date arr_time dep_date dep_time : String) : String :=
  let start := parse (.str arr_date) (.str arr_time)
  let dep := parse (.str dep_date) (.str dep_time)
  match start, dep with
  | some s, some e =>
    let diffSecs : Int := total_secs e - total_secs s
    let mins : Int := Int.fdiv diffSecs 60
    let h : Int := Int.fdiv mins 60
    let m : Int := Int.fmod mins 60
    let hr_label := if h = 1 then "hr" else "hrs"
    let min_label := if m = 1 then "min" else "mins"
    toString h ++ hr_label ++ ", " ++ toString m ++ min_label
  | _, _ => "0hr, 0min"

/-! ## Concrete instances used by the theorems below -/

/-- An Argon2 oracle for which the stored hash verifies. -/
def verify_ok : String → String → ArgonOutcome := fun _ _ => ArgonOutcome.ok true

/-- A rehash-parameter check that reports the hash as up to date. -/
def no_rehash : String → Bool := fun _ => false

/-- A stand-in Argon2 hasher. -/
def identity_hash : String → String := fun s => s

/-- A users table holding one registered user "alice". -/
def auth_alice : AuthState :=
  ⟨[⟨1, "alice", "alice@example.com", "stored-argon-hash"⟩], 2, Option.none, Option.none⟩

/-- An inventory row with the given part number, quantity and user
(the remaining text columns empty). -/
def inv_row (part : String) (q : Int) (user : String) : InventoryRow :=
  ⟨part, q, "", "", "", "", "", "", user⟩

/-- A stored service activity whose quantity is negative (reachable:
`create` and `update` write `safe_int(quantity)` unclamped). -/
def sa_row_neg : SARow :=
  ⟨1, "", "", "", "", "", "", "", "", -5, "P", "", "", "", "", "", "u"⟩

def store_negqty : Store := ⟨[sa_row_neg], [inv_row "P" 2 "u"], 2⟩

/-- An edit of activity 1 that clears the part reference. -/
def sa_obj_clear_part : SAObj :=
  ⟨1, "", "", "", "", "", "", "", "", 0, "", "", "", "", "", "", "u"⟩

def store_alice : Store := ⟨[], [inv_row "X1" 10 "alice"], 1⟩

def sa_data_alice : SAData :=
  ⟨.none, .none, .none, .none, .none, .none, .none, .none,
   .int 3, .str "X1", .none, .none, .none, .none, .none, .str "alice"⟩

/-- The created activity, as the page holds it when deleting. -/
def sa_item_alice : SAObj :=
  ⟨1, "", "", "", "", "", "", "", "", 3, "X1", "", "", "", "", "", "alice"⟩

def store_default : Store := ⟨[], [inv_row "X1" 10 "default_user"], 1⟩

def sa_data_default : SAData :=
  ⟨.none, .none, .none, .none, .none, .none, .none, .none,
   .int 3, .str "X1", .none, .none, .none, .none, .none, .str "default_user"⟩

def sa_item_default : SAObj :=
  ⟨1, "", "", "", "", "", "", "", "", 3, "X1", "", "", "", "", "", "default_user"⟩

/-- A filter dictionary keyed by a name that the proxy does not
recognize as a column. -/
def px_unknown : ColumnFilterProxy := ⟨[("foo", ["A"])], ["model"]⟩

def item_unknown : RowItem := [("foo", PyVal.str "B")]

def px_model_A : ColumnFilterProxy := ⟨[("model", ["A"])], ["model"]⟩

/-- Five rows: three with model "A", two with model "B". -/
def rows_models : List RowItem :=
  [[("model", PyVal.str "A")], [("model", PyVal.str "A")], [("model", PyVal.str "A")],
   [("model", PyVal.str "B")], [("model", PyVal.str "B")]]

/-- A workbook sheet whose header row carries only "Part Number". -/
def sheet_missing_qty : Sheet := ⟨[PyVal.str "Part Number"], []⟩

/-- Create data with a referenced part and an absent quantity. -/
def sa_data_nopos : SAData :=
  ⟨.none, .none, .none, .none, .none, .none, .none, .none,
   .none, .str "P", .none, .none, .none, .none, .none, .str "u"⟩

def store_p5 : Store := ⟨[], [inv_row "P" 5 "u"], 1⟩

/-- A users table whose single row has an empty stored hash. -/
def auth_empty_hash : AuthState :=
  ⟨[⟨1, "carol", "carol@example.com", ""⟩], 2, Option.none, Option.none⟩

def sa_obj_w10 : SAObj :=
  ⟨42, "", "", "", "", "", "", "", "", 1, "", "", "", "", "", "", "u"⟩

def store_empty : Store := ⟨[], [], 1⟩

/-! ## Helper lemmas -/

/-- An unclamped inventory increment by a non-negative amount keeps
all quantities non-negative. -/
theorem inv_add_nonneg {store : List InventoryRow} {part user : String} {amt : Int}
    (hs : ∀ r ∈ store, 0 ≤ r.quantity) (ha : 0 ≤ amt) :
    ∀ r ∈ inv_add store part user amt, 0 ≤ r.quantity := by
  intro r hr
  unfold inv_add at hr
  obtain ⟨r0, hr0, heq⟩ := List.mem_map.mp hr
  by_cases h : r0.part_number = part ∧ r0.user = user
  · rw [if_pos h] at heq
    subst heq
    have := hs r0 hr0
    show 0 ≤ r0.quantity + amt
    omega
  · rw [if_neg h] at heq
    subst heq
    exact hs r0 hr0

/-- A clamped inventory decrement keeps all quantities non-negative. -/
theorem inv_sub_clamped_nonneg {store : List InventoryRow} {part user : String} {amt : Int}
    (hs : ∀ r ∈ store, 0 ≤ r.quantity) :
    ∀ r ∈ inv_sub_clamped store part user amt, 0 ≤ r.quantity := by
  intro r hr
  unfold inv_sub_clamped at hr
  obtain ⟨r0, hr0, heq⟩ := List.mem_map.mp hr
  by_cases h : r0.part_number = part ∧ r0.user = user
  · rw [if_pos h] at heq
    subst heq
    show 0 ≤ max (r0.quantity - amt) 0
    exact le_max_right _ _
  · rw [if_neg h] at heq
    subst heq
    exact hs r0 hr0

/-- Every branch of the update-time inventory adjustment preserves
non-negativity, provided the stored (old) activity quantity is
non-negative. -/
theorem sa_update_inventory_nonneg {inv : List InventoryRow} {old_part new_part user : String}
    {old_qty new_qty : Int}
    (hs : ∀ r ∈ inv, 0 ≤ r.quantity) (hold : 0 ≤ old_qty) :
    ∀ r ∈ sa_update_inventory inv old_part old_qty new_part new_qty user, 0 ≤ r.quantity := by
  unfold sa_update_inventory
  split
  · split
    · exact inv_sub_clamped_nonneg (inv_add_nonneg hs hold)
    · exact inv_add_nonneg hs hold
  · split
    · dsimp only
      split
      · exact inv_sub_clamped_nonneg hs
      · split
        · rename_i hpos hneg
          exact inv_add_nonneg hs (by omega)
        · exact hs
    · split
      · exact inv_add_nonneg hs hold
      · split
        · exact inv_sub_clamped_nonneg hs
        · exact hs

/-! ## Claim theorems -/

/-- Claim C1: the claim says a successful `login_user` makes
`get_current_user` return the authenticated username.  The code stores
the name in the module global `_current_user` (created by
`_set_current_user`), while `get_current_user` reads the distinct
global `current_user`, which stays `None`; so after a successful login
`get_current_user` still returns the fallback `"default_user"`. -/
theorem login_leaves_get_current_user_at_fallback :
    (login_user verify_ok no_rehash identity_hash "alice" "pw" auth_alice).1 = true ∧
    ((login_user verify_ok no_rehash identity_hash "alice" "pw" auth_alice).2).underscore_current_user
      = some "alice" ∧
    get_current_user (login_user verify_ok no_rehash identity_hash "alice" "pw" auth_alice).2
      = "default_user" := by
  refine ⟨rfl, rfl, rfl⟩

/-- Claim C2 counterexample: an inventory row with quantity 2 ≥ 0, a
stored activity with quantity −5 for part "P", and an update that
clears the part: the part-changed restock adds the stored −5 without
clamping and drives the inventory quantity to −3 < 0. -/
theorem update_restock_negative_counterexample :
    ((store_negqty.inventory.map (fun r => r.quantity)) = [2]) ∧
    ((ServiceActivity.update sa_obj_clear_part store_negqty).inventory.map
      (fun r => r.quantity)) = [-3] := by
  refine ⟨rfl, rfl⟩

/-- Claim C2 (amended): for every inventory state whose quantities are
all non-negative, `ServiceActivity.create` keeps them non-negative,
and every branch of `ServiceActivity.update` keeps them non-negative
provided the stored activity quantities are non-negative as well;
decrements are clamped at zero, while the restock on a changed or
removed part adds the stored quantity unclamped (which is safe exactly
when that stored quantity is non-negative). -/
theorem inventory_nonneg_preserved :
    (∀ (data : SAData) (st : Store),
       (∀ r ∈ st.inventory, 0 ≤ r.quantity) →
       ∀ r ∈ (ServiceActivity.create data st).inventory, 0 ≤ r.quantity) ∧
    (∀ (self : SAObj) (st : Store),
       (∀ r ∈ st.inventory, 0 ≤ r.quantity) →
       (∀ a ∈ st.activities, 0 ≤ a.quantity) →
       ∀ r ∈ (ServiceActivity.update self st).inventory, 0 ≤ r.quantity) := by
  constructor
  · intro data st hs r hr
    simp only [ServiceActivity.create] at hr
    split at hr
    · split at hr
      · obtain ⟨r0, hr0, heq⟩ := List.mem_map.mp hr
        by_cases h : r0.part_number = safe_str data.part_replaced ∧
            r0.user = safe_str (if pyTruthy data.user then data.user else .str "default_user")
        · rw [if_pos h] at heq
          subst heq
          show 0 ≤ max 0 _
          exact le_max_left _ _
        · rw [if_neg h] at heq
          subst heq
          exact hs r0 hr0
      · exact hs r hr
    · exact hs r hr
  · intro self st hs hacts r hr
    simp only [ServiceActivity.update] at hr
    split at hr
    · exact hs r hr
    · rename_i old_row hfind
      have hold : 0 ≤ old_row.quantity :=
        hacts old_row (List.mem_of_find?_eq_some hfind)
      exact sa_update_inventory_nonneg hs hold r hr

/-- Claim C2 witness: the amended preservation applied to a concrete
state with non-negative quantities. -/
theorem inventory_nonneg_preserved_witness :
    ∀ r ∈ (ServiceActivity.create sa_data_alice store_alice).inventory, 0 ≤ r.quantity :=
  inventory_nonneg_preserved.1 sa_data_alice store_alice (by decide)

/-- Claim C3: the claim says create-then-delete restores the inventory
of the user of the activity.  For user "alice" the create step decrements
10 → 7, but the delete handler of the page calls
`InventoryItem.add_quantity(part, qty)` without passing the user, so
the restock targets the `"default_user"` row and the inventory of alice
stays at 7; for `"default_user"` itself the round trip does restore
10. -/
theorem create_delete_roundtrip_restores_only_default_user :
    ((ServiceActivity.create sa_data_alice store_alice).inventory.map
        (fun r => r.quantity) = [7]) ∧
    ((sa_page_do_delete sa_item_alice
        (ServiceActivity.create sa_data_alice store_alice)).inventory.map
        (fun r => r.quantity) = [7]) ∧
    ((sa_page_do_delete sa_item_alice
        (ServiceActivity.create sa_data_alice store_alice)).activities = []) ∧
    ((ServiceActivity.create sa_data_default store_default).inventory.map
        (fun r => r.quantity) = [7]) ∧
    ((sa_page_do_delete sa_item_default
        (ServiceActivity.create sa_data_default store_default)).inventory.map
        (fun r => r.quantity) = [10]) := by
  refine ⟨rfl, rfl, rfl, rfl, rfl⟩

/-- Claim C4: the concrete example parses through the 12-hour pattern
and yields "8hrs, 30mins"; and whenever the date+time strings of
either endpoint match none of the three accepted patterns, the result
is "0hr, 0min". -/
theorem compute_duration_example_and_unparseable :
    compute_duration "2024-01-01" "9:00 AM" "2024-01-01" "5:30 PM" = "8hrs, 30mins" ∧
    ∀ (ad at_ dd dt : String),
      parse (.str ad) (.str at_) = Option.none ∨ parse (.str dd) (.str dt) = Option.none →
      compute_duration ad at_ dd dt = "0hr, 0min" := by
  constructor
  · rfl
  · intro ad at_ dd dt h
    cases hp : parse (.str ad) (.str at_) with
    | none => simp [compute_duration, hp]
    | some s =>
      cases hq : parse (.str dd) (.str dt) with
      | none => simp [compute_duration, hp, hq]
      | some e =>
        rcases h with h | h
        · rw [hp] at h
          exact Option.noConfusion h
        · rw [hq] at h
          exact Option.noConfusion h

/-- Claim C4 witness: fully unparseable inputs give the zero result. -/
theorem compute_duration_unparseable_witness :
    compute_duration "garbage" "x" "y" "z" = "0hr, 0min" :=
  compute_duration_example_and_unparseable.2 "garbage" "x" "y" "z" (Or.inl rfl)

/-- One entry of the filter dictionary, as `filterAcceptsRow` tests
it, accepts the row exactly when a non-empty allow-set on a
*recognized* column contains the cell value. -/
theorem filter_entry_iff (columns : List String) (item : RowItem) (cf : String × List String) :
    ((if cf.2.isEmpty then true
      else if ¬ (columns.contains cf.1) then true
      else cf.2.contains (cellStr item cf.1)) = true) ↔
    (cf.2 ≠ [] → cf.1 ∈ columns → cellStr item cf.1 ∈ cf.2) := by
  by_cases h1 : cf.2.isEmpty
  · simp [h1, List.isEmpty_iff.mp h1]
  · by_cases h2 : columns.contains cf.1
    · have h2m : cf.1 ∈ columns := List.elem_iff.mp h2
      have hne : cf.2 ≠ [] := fun hnil => h1 (by simp [hnil])
      simp [h1, h2, List.elem_iff, h2m, hne]
    · have h2m : ¬ cf.1 ∈ columns := fun hm => h2 (List.elem_iff.mpr hm)
      simp [h1, h2, h2m]

/-- Claim C5 counterexample: a filter entry whose key is not among the
recognized columns of the proxy is skipped by the code, so the row is
accepted even though its value for that key is outside the allow-set,
contradicting the claimed "if and only if". -/
theorem filter_unknown_column_counterexample :
    ColumnFilterProxy.filterAcceptsRow px_unknown [item_unknown] 0 = true ∧
    specAcceptsRow px_unknown.filters item_unknown = false := by
  refine ⟨rfl, rfl⟩

/-- Claim C5 (amended): a row is accepted iff, for every filtered
column *recognized by the proxy* whose allow-set is non-empty, the
stringified cell value is in the allow-set (an entry keyed by an
unrecognized column imposes no constraint); and on the concrete data,
filtering five rows on model "A" exposes exactly 3 rows while clearing
the filters exposes all 5. -/
theorem filter_allowlist_characterization :
    (∀ (p : ColumnFilterProxy) (items : List RowItem) (r : Nat),
        r < items.length →
        (p.filterAcceptsRow items r = true ↔
          ∀ cf ∈ p.filters, cf.2 ≠ [] → cf.1 ∈ p.columns →
            cellStr (items.getD r []) cf.1 ∈ cf.2)) ∧
    visible_count px_model_A rows_models = 3 ∧
    visible_count (px_model_A.set_filters []) rows_models = 5 := by
  refine ⟨?_, rfl, rfl⟩
  intro p items r hr
  unfold ColumnFilterProxy.filterAcceptsRow
  rw [if_pos hr]
  dsimp only
  rw [List.all_eq_true]
  exact ⟨fun h cf hcf => (filter_entry_iff p.columns (items.getD r []) cf).mp (h cf hcf),
         fun h cf hcf => (filter_entry_iff p.columns (items.getD r []) cf).mpr (h cf hcf)⟩

/-- Claim C5 witness: the characterization applied to the first
concrete row. -/
theorem filter_allowlist_characterization_witness :
    ColumnFilterProxy.filterAcceptsRow px_model_A rows_models 0 = true ↔
      (∀ cf ∈ px_model_A.filters, cf.2 ≠ [] → cf.1 ∈ px_model_A.columns →
        cellStr (rows_models.getD 0 []) cf.1 ∈ cf.2) :=
  filter_allowlist_characterization.1 px_model_A rows_models 0 (by decide)

/-- Claim C6: when at least one required header is absent from the
normalized header row, the importer writes nothing to the store and
returns exactly the missing required header names (zero added, the
filter of `REQUIRED_HEADERS` by absence). -/
theorem import_missing_headers_inserts_nothing
    (sheet : Sheet) (user : String) (store : List InventoryRow)
    (hmiss : REQUIRED_HEADERS.filter
      (fun h => ¬ ((sheet.header.map normalize_header).contains h)) ≠ []) :
    import_inventory_from_excel sheet user store =
      (store, 0, REQUIRED_HEADERS.filter
        (fun h => ¬ ((sheet.header.map normalize_header).contains h))) ∧
    ∀ h, (h ∈ REQUIRED_HEADERS.filter
        (fun h2 => ¬ ((sheet.header.map normalize_header).contains h2))) ↔
      (h ∈ REQUIRED_HEADERS ∧ ¬ h ∈ sheet.header.map normalize_header) := by
  constructor
  · unfold import_inventory_from_excel
    rw [if_pos hmiss]
  · intro h
    rw [List.mem_filter]
    simp [List.elem_iff]

/-- Claim C6 witness: a sheet whose header row holds only
"Part Number" causes the abort with the other eight required names. -/
theorem import_missing_headers_witness :
    import_inventory_from_excel sheet_missing_qty "alice" [] =
      ([], 0, REQUIRED_HEADERS.filter
        (fun h => ¬ ((sheet_missing_qty.header.map normalize_header).contains h))) :=
  (import_missing_headers_inserts_nothing sheet_missing_qty "alice" [] (by decide)).1

/-- Claim C7: registering a username that already has a row returns
`False` and the users table (and the whole state) is unchanged: the
existing row keeps its email and hash and nothing is inserted. -/
theorem register_existing_username_unchanged
    (hashFn : String → String) (username email password : String) (st : AuthState)
    (hex : ∃ u ∈ st.users, u.username = username) :
    register_user hashFn username email password st = (false, st) := by
  obtain ⟨u, hu, he⟩ := hex
  have hany : st.users.any (fun v => v.username == username) = true :=
    List.any_eq_true.mpr ⟨u, hu, by simp [he]⟩
  simp [register_user, hany]

/-- Claim C7 witness: re-registering "alice" fails and preserves the
state. -/
theorem register_existing_username_witness :
    register_user identity_hash "alice" "other@example.com" "newpw" auth_alice =
      (false, auth_alice) :=
  register_existing_username_unchanged identity_hash "alice" "other@example.com" "newpw"
    auth_alice ⟨⟨1, "alice", "alice@example.com", "stored-argon-hash"⟩, by decide, rfl⟩

/-- Claim C8: `verify_password_argon2` is a total boolean function of
the Argon2 outcome — it returns the `true` of the verifier, and each of the
three caught exception outcomes (wrong password, corrupted hash,
invalid format) becomes `false` instead of propagating; and
`login_user` returns `false` (with untouched state) for an unknown
username, an empty stored hash, or a non-verifying password. -/
theorem auth_failures_return_false :
    (∀ (verify : String → String → ArgonOutcome) (stored_hash password : String),
        (verify stored_hash password = .ok true →
          verify_password_argon2 verify stored_hash password = true) ∧
        (verify stored_hash password = .ok false ∨
         verify stored_hash password = .verifyMismatch ∨
         verify stored_hash password = .verificationError ∨
         verify stored_hash password = .invalidHash →
          verify_password_argon2 verify stored_hash password = false)) ∧
    (∀ (verify : String → String → ArgonOutcome) (nr : String → Bool)
        (hf : String → String) (username password : String) (st : AuthState),
        (∀ u ∈ st.users, u.username ≠ username) →
        login_user verify nr hf username password st = (false, st)) ∧
    (∀ (verify : String → String → ArgonOutcome) (nr : String → Bool)
        (hf : String → String) (username password : String) (st : AuthState) (row : UserRow),
        st.users.find? (fun u => u.username == username) = some row →
        row.password_hash = "" →
        login_user verify nr hf username password st = (false, st)) ∧
    (∀ (verify : String → String → ArgonOutcome) (nr : String → Bool)
        (hf : String → String) (username password : String) (st : AuthState) (row : UserRow),
        st.users.find? (fun u => u.username == username) = some row →
        verify_password_argon2 verify row.password_hash password = false →
        login_user verify nr hf username password st = (false, st)) := by
  refine ⟨?_, ?_, ?_, ?_⟩
  · intro verify h p
    constructor
    · intro hv
      simp [verify_password_argon2, hv]
    · intro hv
      rcases hv with hv | hv | hv | hv <;> simp [verify_password_argon2, hv]
  · intro verify nr hf username password st hnone
    have hfind : st.users.find? (fun u => u.username == username) = Option.none := by
      rw [List.find?_eq_none]
      intro u hu
      simpa using hnone u hu
    simp [login_user, hfind]
  · intro verify nr hf username password st row hfind hempty
    simp [login_user, hfind, hempty]
  · intro verify nr hf username password st row hfind hvf
    by_cases hempty : row.password_hash = ""
    · simp [login_user, hfind, hempty]
    · simp [login_user, hfind, hempty, hvf]

/-- Claim C8 witness: each failure mode at a concrete input. -/
theorem auth_failures_return_false_witness :
    verify_password_argon2 (fun _ _ => ArgonOutcome.verifyMismatch) "h" "p" = false ∧
    login_user verify_ok no_rehash identity_hash "bob" "pw" auth_alice = (false, auth_alice) ∧
    login_user verify_ok no_rehash identity_hash "carol" "pw" auth_empty_hash =
      (false, auth_empty_hash) ∧
    login_user (fun _ _ => ArgonOutcome.verifyMismatch) no_rehash identity_hash
      "alice" "wrong" auth_alice = (false, auth_alice) :=
  ⟨(auth_failures_return_false.1 (fun _ _ => ArgonOutcome.verifyMismatch) "h" "p").2
      (Or.inr (Or.inl rfl)),
   auth_failures_return_false.2.1 verify_ok no_rehash identity_hash "bob" "pw" auth_alice
      (by decide),
   auth_failures_return_false.2.2.1 verify_ok no_rehash identity_hash "carol" "pw"
      auth_empty_hash ⟨1, "carol", "carol@example.com", ""⟩ rfl rfl,
   auth_failures_return_false.2.2.2 (fun _ _ => ArgonOutcome.verifyMismatch) no_rehash
      identity_hash "alice" "wrong" auth_alice
      ⟨1, "alice", "alice@example.com", "stored-argon-hash"⟩ rfl rfl⟩

/-- Claim C9: when `create` references a part but the stated quantity
is missing, zero, or negative (`safe_int` value ≤ 0), the consumed
quantity defaults to 1: every inventory row matching the part and user
is set to the quantity of the first matching row minus one, clamped at
zero. -/
theorem create_nonpositive_quantity_decrements_one
    (data : SAData) (st : Store) (r0 : InventoryRow)
    (hpart : safe_str data.part_replaced ≠ "")
    (hq : safe_int data.quantity ≤ 0)
    (hfind : st.inventory.find? (fun r =>
        r.part_number == safe_str data.part_replaced &&
        r.user == safe_str (if pyTruthy data.user then data.user else .str "default_user"))
      = some r0) :
    (ServiceActivity.create data st).inventory =
      st.inventory.map (fun r =>
        if r.part_number = safe_str data.part_replaced ∧
           r.user = safe_str (if pyTruthy data.user then data.user else .str "default_user") then
          { r with quantity := max 0 (r0.quantity - 1) }
        else r) := by
  simp only [ServiceActivity.create]
  rw [if_pos hpart, hfind]
  have huse : (if safe_int data.quantity > 0 then safe_int data.quantity else 1) = 1 := by
    rw [if_neg]
    omega
  rw [huse]

/-- Claim C9 witness: part "P" with an absent quantity decrements the
matching row 5 → 4. -/
theorem create_nonpositive_quantity_decrements_one_witness :
    (ServiceActivity.create sa_data_nopos store_p5).inventory =
      store_p5.inventory.map (fun r =>
        if r.part_number = safe_str sa_data_nopos.part_replaced ∧
           r.user = safe_str (if pyTruthy sa_data_nopos.user then sa_data_nopos.user
             else .str "default_user") then
          { r with quantity := max 0 ((inv_row "P" 5 "u").quantity - 1) }
        else r) :=
  create_nonpositive_quantity_decrements_one sa_data_nopos store_p5 (inv_row "P" 5 "u")
    (by decide) (by decide) (by decide)

/-- Claim C10: updating a `ServiceActivity` whose id is absent from
the table leaves the whole state — activity rows and inventory —
unchanged. -/
theorem update_nonexistent_id_is_noop (self : SAObj) (st : Store)
    (h : ∀ a ∈ st.activities, a.id ≠ self.id) :
    ServiceActivity.update self st = st := by
  have hfind : st.activities.find? (fun r => r.id == self.id) = Option.none := by
    rw [List.find?_eq_none]
    intro a ha
    simpa using h a ha
  simp [ServiceActivity.update, hfind]

/-- Claim C10 witness: updating id 42 against an empty table is a
no-op. -/
theorem update_nonexistent_id_is_noop_witness :
    ServiceActivity.update sa_obj_w10 store_empty = store_empty :=
  update_nonexistent_id_is_noop sa_obj_w10 store_empty (by decide)

end TechnicianToolkit
